import Mathlib

/-!
Shallow embedding of the session/token manager of `nest-scaffold`
(`src/auth/auth.service.ts`, `src/auth/strategies/jwt.strategy.ts`,
`src/auth/auth.controller.ts`, `prisma/migrations/.../migration.sql`).

Conventions:
* instants are epoch milliseconds as `Int`; JWT `exp`/`iat` claims are epoch
  seconds as in RFC 7519;
* JavaScript `Date` calendar arithmetic (`setDate`, `setHours`, ...) is
  modelled as uniform epoch-millisecond arithmetic (UTC, no DST);
* a JavaScript `NaN`/Invalid Date is modelled with `Option` (`none`);
* thrown exceptions are modelled with `Except`/explicit error fields.
-/

/-- Digit-run parser used by `parseIntJs`: the maximal leading run of decimal
digits, `none` when the run is empty (JavaScript `NaN`). -/
def parseDigits (cs : List Char) : Option Nat :=
  let ds := cs.takeWhile Char.isDigit
  if ds.isEmpty then none
  else some (ds.foldl (fun acc c => acc * 10 + (c.toNat - 48)) 0)

/-- Model of JavaScript `parseInt(str, 10)`: skip leading whitespace, read an
optional sign, then the maximal run of decimal digits; `none` models `NaN`. -/
def parseIntJs (s : String) : Option Int :=
  let cs := s.data.dropWhile Char.isWhitespace
  match cs with
  | '-' :: t => (parseDigits t).map (fun n => -(n : Int))
  | '+' :: t => (parseDigits t).map (fun n => (n : Int))
  | t => (parseDigits t).map (fun n => (n : Int))

/-- Configuration consumed by `AuthService` via `ConfigService`:
`app.cookieDomain` and `jwt.expiresIn` (both may be unset). -/
structure AppConfig where
  cookieDomain : Option String
  jwtExpiresIn : Option String
  deriving Repr, DecidableEq

/-- JavaScript `str.endsWith(c)` for a one-character suffix `c`. -/
def endsWithChar (s : String) (c : Char) : Bool :=
  s.data.getLast? == some c

/-- Model of `AuthService.calculateExpirationDate`: parse a duration string such as
`"1d"`, `"7h"`, `"30m"`, `"45s"` and add it to `now`; a suffix other than
`d`/`h`/`m`/`s` defaults to one day.  `none` models the Invalid Date produced
when `parseInt` of the numeric part is `NaN`. -/
def calculateExpirationDate (now : Int) (durationStr : String) : Option Int :=
  if endsWithChar durationStr 'd' then
    (parseIntJs (durationStr.dropRight 1)).map (fun n => now + n * 86400000)
  else if endsWithChar durationStr 'h' then
    (parseIntJs (durationStr.dropRight 1)).map (fun n => now + n * 3600000)
  else if endsWithChar durationStr 'm' then
    (parseIntJs (durationStr.dropRight 1)).map (fun n => now + n * 60000)
  else if endsWithChar durationStr 's' then
    (parseIntJs (durationStr.dropRight 1)).map (fun n => now + n * 1000)
  else
    some (now + 86400000)

/-- Model of `AuthService.getCommonCookieAttributes`: the attribute text shared by the
setting and the clearing cookie. -/
def getCommonCookieAttributes (cfg : AppConfig) : String :=
  let domainPart :=
    match cfg.cookieDomain with
    | some d => "; Domain=" ++ d
    | none => ""
  "HttpOnly; Path=/" ++ domainPart ++ "; SameSite=Strict; Secure"

/-- The local `maxAge` of `AuthService.getTokenCookie`:
`Math.floor((expires.getTime() - Date.now()) / 1000)`, `none` for `NaN`. -/
def tokenCookieMaxAge (now : Int) (expiresIn : String) : Option Int :=
  (calculateExpirationDate now expiresIn).map (fun e => Int.fdiv (e - now) 1000)

/-- Rendering of the `Max-Age` number, `"NaN"` for an invalid one. -/
def maxAgeText : Option Int → String
  | some n => toString n
  | none => "NaN"

/-- Model of `AuthService.getTokenCookie`: the `Set-Cookie` value for a fresh token,
with `jwt.expiresIn` read from config with default `"1d"`. -/
def getTokenCookie (cfg : AppConfig) (now : Int) (token : String) : String :=
  let expiresIn := cfg.jwtExpiresIn.getD "1d"
  let maxAge := tokenCookieMaxAge now expiresIn
  "Authentication=" ++ token ++ "; " ++ getCommonCookieAttributes cfg ++
    "; Max-Age=" ++ maxAgeText maxAge

/-- Model of `AuthService.getClearAuthCookie`: the clearing cookie (empty value,
`Max-Age=0`, same common attributes). -/
def getClearAuthCookie (cfg : AppConfig) : String :=
  "Authentication=; " ++ getCommonCookieAttributes cfg ++ "; Max-Age=0"

/-!  ## JWT payloads and decoding  -/

/-- Decoded JWT claims as produced by the signing library: the claims built by
`AuthService.login` plus the library-added `iat`/`exp`.  `exp?` is `none` when
the token carries no numeric expiry claim. -/
structure JwtClaims where
  sub : Int
  username : Option String
  email : String
  verified : Bool
  iat : Int
  exp? : Option Int
  deriving Repr, DecidableEq

/-- Result of `jwtService.decode` (local decode, no signature check):
`null` for an undecodable token, a string payload, or an object payload. -/
inductive DecodeResult where
  | null : DecodeResult
  | strPayload : String → DecodeResult
  | objPayload : JwtClaims → DecodeResult
  deriving Repr, DecidableEq

/-- Verification in the `jsonwebtoken` style at instant `now` (ms): signature check
via `checkSig`, then reject when `floor(now/1000) ≥ exp` (no check when the
token has no `exp` claim). -/
def jwtVerify (checkSig : String → Option JwtClaims) (token : String)
    (now : Int) : Option JwtClaims :=
  match checkSig token with
  | none => none
  | some p =>
    match p.exp? with
    | none => some p
    | some e => if e ≤ Int.fdiv now 1000 then none else some p

/-!  ## The `TokenBlacklist` table  -/

/-- A row of the `TokenBlacklist` table
(`prisma/migrations/20250326081137_initial_setup/migration.sql`):
`token TEXT` (unique index), `expiresAt DATETIME`, `createdAt DATETIME`.
Timestamps in epoch ms. -/
structure TokenBlacklistRow where
  token : String
  expiresAt : Int
  createdAt : Int
  deriving Repr, DecidableEq

/-- The revocation store: the rows of `TokenBlacklist` in insertion order. -/
abbrev BlacklistStore := List TokenBlacklistRow

/-- Errors raised by the storage layer on `tokenBlacklist.create`. -/
inductive DbError where
  | uniqueViolation : DbError
  | invalidValue : DbError
  deriving Repr, DecidableEq

/-- Model of `prisma.tokenBlacklist.create`: rejects an Invalid Date value for
`expiresAt` (client-side validation) and enforces the unique index on
`token`; otherwise appends the new row. -/
def tokenBlacklistCreate (store : BlacklistStore) (token : String)
    (expiresAt : Option Int) (now : Int) : Except DbError BlacklistStore :=
  match expiresAt with
  | none => Except.error DbError.invalidValue
  | some e =>
    if store.any (fun r => r.token == token) then
      Except.error DbError.uniqueViolation
    else
      Except.ok (store ++ [{ token := token, expiresAt := e, createdAt := now }])

/-- Model of `prisma.tokenBlacklist.findFirst` with a `where: { token }` filter. -/
def tokenBlacklistFindFirst (store : BlacklistStore) (token : String) :
    Option TokenBlacklistRow :=
  store.find? (fun r => r.token == token)

/-!  ## AuthService operations  -/

/-- Errors thrown by `AuthService.logout`: `BadRequestException('Invalid
token')`, or a propagated storage error. -/
inductive LogoutError where
  | invalidToken : LogoutError
  | dbError : DbError → LogoutError
  deriving Repr, DecidableEq

/-- Model of `AuthService.logout`: decode the token (no signature check); throw
`Invalid token` when the decode result is `null` or not an object; otherwise
insert a blacklist row keyed by the raw token string with
`expiresAt = decoded.exp * 1000` (an absent `exp` claim yields an Invalid
Date). -/
def logout (decode : String → DecodeResult) (store : BlacklistStore)
    (now : Int) (token : String) : Except LogoutError BlacklistStore :=
  match decode token with
  | DecodeResult.null => Except.error LogoutError.invalidToken
  | DecodeResult.strPayload _ => Except.error LogoutError.invalidToken
  | DecodeResult.objPayload c =>
    match tokenBlacklistCreate store token (c.exp?.map (fun e => e * 1000)) now with
    | Except.error e => Except.error (LogoutError.dbError e)
    | Except.ok s => Except.ok s

/-- The store as left by a call to `logout`: unchanged when the call threw. -/
def logoutStore (decode : String → DecodeResult) (store : BlacklistStore)
    (now : Int) (token : String) : BlacklistStore :=
  match logout decode store now token with
  | Except.ok s => s
  | Except.error _ => store

/-- A user row (`User` table of the migration). -/
structure User where
  id : Int
  email : String
  username : Option String
  password : String
  name : Option String
  createdAt : Int
  updatedAt : Option Int
  disabled : Bool
  verified : Bool
  deriving Repr, DecidableEq

/-- The rest object of `const { password, ...result } = user`. -/
structure UserNoPassword where
  id : Int
  email : String
  username : Option String
  name : Option String
  createdAt : Int
  updatedAt : Option Int
  disabled : Bool
  verified : Bool
  deriving Repr, DecidableEq

/-- Spread `const { password, ...result } = user` — every field but `password`. -/
def removePassword (u : User) : UserNoPassword :=
  { id := u.id, email := u.email, username := u.username, name := u.name,
    createdAt := u.createdAt, updatedAt := u.updatedAt,
    disabled := u.disabled, verified := u.verified }

/-- Model of `AuthService.validateUser`: look the user up by identifier, return `null`
for a missing or disabled user or a failed password comparison, else the user
without its password field.  `findOne` models `UsersService.findOne` and
`bcryptCompare` models `bcrypt.compare`. -/
def validateUser (findOne : String → Option User)
    (bcryptCompare : String → String → Bool)
    (identifier pass : String) : Option UserNoPassword :=
  match findOne identifier with
  | none => none
  | some user =>
    if user.disabled then none
    else if bcryptCompare pass user.password then some (removePassword user)
    else none

/-- The payload object built by `AuthService.login` before signing. -/
structure LoginPayload where
  email : String
  username : Option String
  sub : Int
  verified : Bool
  deriving Repr, DecidableEq

/-- The payload `AuthService.login` builds from a user. -/
def loginPayloadOf (user : User) : LoginPayload :=
  { email := user.email, username := user.username, sub := user.id,
    verified := user.verified }

/-- Return value of `AuthService.login`. -/
structure LoginResult where
  cookie : String
  deriving Repr, DecidableEq

/-- Model of `AuthService.login`: sign the payload (`jwtSign` models
`jwtService.sign`, which adds `iat`/`exp`) and wrap the token in the
authentication cookie. -/
def login (jwtSign : LoginPayload → String) (cfg : AppConfig) (now : Int)
    (user : User) : LoginResult :=
  let payload := loginPayloadOf user
  let token := jwtSign payload
  { cookie := getTokenCookie cfg now token }

/-!  ## Request-time validation (`JwtStrategy.validate`) and the guard  -/

/-- Unauthorized outcomes of the authentication pipeline: passport finds no
token in the cookies, signature/expiry verification fails, the strategy sees
no `Authentication` cookie, or the token is blacklisted. -/
inductive AuthError where
  | noToken : AuthError
  | invalidOrExpired : AuthError
  | noAuthCookie : AuthError
  | blacklisted : AuthError
  deriving Repr, DecidableEq

/-- The object returned by `JwtStrategy.validate`:
`{ userId: payload.sub, username: payload.username }`. -/
structure ValidatedUser where
  userId : Int
  username : Option String
  deriving Repr, DecidableEq

/-- Model of `JwtStrategy.validate` (cookie variant): reject when the request carries
no `Authentication` cookie, reject when the token is found in the blacklist,
else return the identity taken from the signed claims. -/
def jwtStrategyValidate (store : BlacklistStore) (cookieToken : Option String)
    (payload : JwtClaims) : Except AuthError ValidatedUser :=
  match cookieToken with
  | none => Except.error AuthError.noAuthCookie
  | some token =>
    match tokenBlacklistFindFirst store token with
    | some _ => Except.error AuthError.blacklisted
    | none => Except.ok { userId := payload.sub, username := payload.username }

/-- The passport JWT pipeline run by the guard on a protected route: extract
the `Authentication` cookie, verify signature and expiry, then run
`JwtStrategy.validate` on the same request. -/
def authenticateRequest (checkSig : String → Option JwtClaims)
    (store : BlacklistStore) (now : Int) (cookies : Option String) :
    Except AuthError ValidatedUser :=
  match cookies with
  | none => Except.error AuthError.noToken
  | some token =>
    match jwtVerify checkSig token now with
    | none => Except.error AuthError.invalidOrExpired
    | some payload => jwtStrategyValidate store cookies payload

/-!  ## `AuthController.logout` and the protected logout endpoint  -/

/-- Failure of the logout endpoint: the guard rejected the request, the
controller found no `Authentication` cookie, or `AuthService.logout` threw. -/
inductive EndpointError where
  | guardError : AuthError → EndpointError
  | noAuthCookie : EndpointError
  | serviceError : LogoutError → EndpointError
  deriving Repr, DecidableEq

/-- Observable outcome of a logout request: the store afterwards, the
`Set-Cookie` header written on the response (if any), and the error thrown
(if any). -/
structure LogoutOutcome where
  store : BlacklistStore
  setCookieHeader : Option String
  error : Option EndpointError
  deriving Repr, DecidableEq

/-- Model of `AuthController.logout`: read the `Authentication` cookie, throw when
absent, run `AuthService.logout`, and only then set the clearing cookie
header; a thrown exception leaves the header unset. -/
def authControllerLogout (cfg : AppConfig) (decode : String → DecodeResult)
    (store : BlacklistStore) (now : Int) (cookies : Option String) :
    LogoutOutcome :=
  match cookies with
  | none =>
    { store := store, setCookieHeader := none,
      error := some EndpointError.noAuthCookie }
  | some token =>
    match logout decode store now token with
    | Except.error e =>
      { store := store, setCookieHeader := none,
        error := some (EndpointError.serviceError e) }
    | Except.ok store' =>
      { store := store', setCookieHeader := some (getClearAuthCookie cfg),
        error := none }

/-- The logout endpoint as deployed: `POST /auth/logout` is not `@Public`, so
the JWT guard authenticates the request before the controller runs. -/
def logoutEndpoint (cfg : AppConfig) (checkSig : String → Option JwtClaims)
    (decode : String → DecodeResult) (store : BlacklistStore) (now : Int)
    (cookies : Option String) : LogoutOutcome :=
  match authenticateRequest checkSig store now cookies with
  | Except.error e =>
    { store := store, setCookieHeader := none,
      error := some (EndpointError.guardError e) }
  | Except.ok _ => authControllerLogout cfg decode store now cookies

/-!  ## Event traces over the revocation store  -/

/-- The operations that touch (or could touch) the revocation store. -/
inductive Event where
  | loginEv : User → Int → Event
  | logoutEv : Option String → Int → Event
  | requestEv : Option String → Int → Event
  deriving Repr, DecidableEq

/-- Run a trace of events against the store, also accumulating the log of
successful logouts as `(token, instant)` pairs.  Only the logout endpoint
writes to the store; login issues tokens without persisting anything and an
authenticated request only reads. -/
def runEvents (cfg : AppConfig) (checkSig : String → Option JwtClaims)
    (decode : String → DecodeResult) :
    List Event → BlacklistStore → List (String × Int) →
    BlacklistStore × List (String × Int)
  | [], st, lo => (st, lo)
  | Event.loginEv _ _ :: rest, st, lo => runEvents cfg checkSig decode rest st lo
  | Event.requestEv _ _ :: rest, st, lo => runEvents cfg checkSig decode rest st lo
  | Event.logoutEv cookies now :: rest, st, lo =>
    match cookies with
    | none => runEvents cfg checkSig decode rest st lo
    | some t =>
      match (logoutEndpoint cfg checkSig decode st now (some t)).error with
      | none =>
        runEvents cfg checkSig decode rest
          (logoutEndpoint cfg checkSig decode st now (some t)).store
          (lo ++ [(t, now)])
      | some _ => runEvents cfg checkSig decode rest st lo

/-- Relation kept between the revocation store and the log of successful
logouts: a token has a row exactly when it appears in the log, and every
logged-out token carried a valid signature and a numeric expiry that was
still in the future at logout time. -/
def storeLogInv (checkSig : String → Option JwtClaims)
    (st : BlacklistStore) (lo : List (String × Int)) : Prop :=
  (∀ t : String, (st.any (fun r => r.token == t) = true ↔ ∃ tm, (t, tm) ∈ lo)) ∧
  (∀ t tm, (t, tm) ∈ lo →
    ∃ p e, checkSig t = some p ∧ p.exp? = some e ∧ Int.fdiv tm 1000 < e)

/-!  ## Concrete fixtures used to instantiate the theorems  -/

/-- A sample set of signed claims. -/
def claimsA : JwtClaims :=
  { sub := 7, username := some "alice", email := "alice@example.com",
    verified := true, iat := 0, exp? := some 9999 }

/-- Signature check accepting exactly the token `"tokA"`. -/
def checkSigA : String → Option JwtClaims :=
  fun t => if t = "tokA" then some claimsA else none

/-- Local decode agreeing with `checkSigA`. -/
def decodeA : String → DecodeResult :=
  fun t => if t = "tokA" then DecodeResult.objPayload claimsA else DecodeResult.null

/-- A sample configuration. -/
def cfgA : AppConfig :=
  { cookieDomain := some "example.com", jwtExpiresIn := some "1d" }

/-- A signing function producing the token `"tokA"`. -/
def signA : LoginPayload → String := fun _ => "tokA"

/-- A sample user record matching `claimsA`. -/
def userA : User :=
  { id := 7, email := "alice@example.com", username := some "alice",
    password := "hashed", name := some "Alice", createdAt := 0,
    updatedAt := none, disabled := false, verified := true }

/-- Credential-store lookup holding exactly `userA`. -/
def findOneA : String → Option User :=
  fun i => if i = "alice@example.com" then some userA else none

/-- Password comparison accepting `"pw"` against the stored hash. -/
def bcryptCompareA : String → String → Bool :=
  fun p h => p == "pw" && h == "hashed"

/-- Decode returning an object payload that has no numeric `exp` claim. -/
def decodeNoExpiry : String → DecodeResult :=
  fun _ => DecodeResult.objPayload
    { sub := 1, username := none, email := "bob@example.com",
      verified := false, iat := 0, exp? := none }

/-- Decode failing on every token (`jwt.decode` returning `null`). -/
def decodeNullA : String → DecodeResult := fun _ => DecodeResult.null

/-!  ## Helper lemmas  -/

/-- The fixtures `checkSigA` and `decodeA` agree, as `jwt.verify`/`jwt.decode` do. -/
theorem checkSigA_coh :
    ∀ t p, checkSigA t = some p → decodeA t = DecodeResult.objPayload p := by
  intro t p h
  unfold checkSigA at h
  unfold decodeA
  by_cases ht : t = "tokA"
  · rw [if_pos ht] at h
    rw [if_pos ht]
    cases h
    rfl
  · rw [if_neg ht] at h
    exact absurd h (by simp)

/-- Lookup with `find?` over an append tries the left part first. -/
theorem findFirst_append (st ext : BlacklistStore) (t : String) :
    tokenBlacklistFindFirst (st ++ ext) t =
      (tokenBlacklistFindFirst st t).or (tokenBlacklistFindFirst ext t) := by
  unfold tokenBlacklistFindFirst
  induction st with
  | nil => simp
  | cons a rest ih =>
    by_cases h : a.token == t <;> simp [List.find?, h, ih]

/-- When no row matches, `find?` returns `none`. -/
theorem findFirst_eq_none_of_any_false (st : BlacklistStore) (t : String)
    (h : st.any (fun r => r.token == t) = false) :
    tokenBlacklistFindFirst st t = none := by
  unfold tokenBlacklistFindFirst
  rw [List.find?_eq_none]
  intro r hr hrt
  rw [List.any_eq_false] at h
  exact h r hr hrt

/-- What a successful `AuthService.logout` entails: the token decoded to an
object with a numeric `exp`, it was not yet blacklisted, and exactly the one
new row was appended. -/
theorem logout_ok_elim {decode : String → DecodeResult} {st st' : BlacklistStore}
    {now : Int} {t : String} (h : logout decode st now t = Except.ok st') :
    ∃ c e, decode t = DecodeResult.objPayload c ∧ c.exp? = some e ∧
      st.any (fun r => r.token == t) = false ∧
      st' = st ++ [{ token := t, expiresAt := e * 1000, createdAt := now }] := by
  cases hd : decode t with
  | null => simp [logout, hd] at h
  | strPayload s => simp [logout, hd] at h
  | objPayload c =>
    cases he : c.exp? with
    | none => simp [logout, hd, tokenBlacklistCreate, he] at h
    | some e =>
      by_cases hany : st.any (fun r => r.token == t) = true
      · simp [logout, hd, tokenBlacklistCreate, he, hany] at h
      · simp only [logout, hd, tokenBlacklistCreate, he, Option.map_some',
          if_neg hany, Except.ok.injEq] at h
        exact ⟨c, e, rfl, he, Bool.eq_false_iff.mpr hany, h.symm⟩

/-- What a successful `jwtVerify` entails. -/
theorem jwtVerify_some_elim {checkSig : String → Option JwtClaims}
    {t : String} {now : Int} {p : JwtClaims}
    (h : jwtVerify checkSig t now = some p) :
    checkSig t = some p ∧ ∀ e, p.exp? = some e → Int.fdiv now 1000 < e := by
  cases hc : checkSig t with
  | none => simp [jwtVerify, hc] at h
  | some q =>
    cases hq : q.exp? with
    | none =>
      simp only [jwtVerify, hc, hq, Option.some.injEq] at h
      subst h
      refine ⟨rfl, fun e he => ?_⟩
      rw [hq] at he
      simp at he
    | some e =>
      by_cases hle : e ≤ Int.fdiv now 1000
      · simp [jwtVerify, hc, hq, hle] at h
      · simp only [jwtVerify, hc, hq, if_neg hle, Option.some.injEq] at h
        subst h
        refine ⟨rfl, fun e' he' => ?_⟩
        rw [hq] at he'
        simp only [Option.some.injEq] at he'
        subst he'
        exact lt_of_not_le hle

/-- What a successful run of the logout endpoint entails: the guard verified
the cookie token, the service decoded it to an object with a numeric `exp`,
the token was not yet blacklisted, and exactly one new row was appended. -/
theorem logoutEndpoint_ok_elim (cfg : AppConfig)
    (checkSig : String → Option JwtClaims) (decode : String → DecodeResult)
    (st : BlacklistStore) (now : Int) (t : String)
    (h : (logoutEndpoint cfg checkSig decode st now (some t)).error = none) :
    ∃ p c e, jwtVerify checkSig t now = some p ∧
      decode t = DecodeResult.objPayload c ∧ c.exp? = some e ∧
      st.any (fun r => r.token == t) = false ∧
      logoutEndpoint cfg checkSig decode st now (some t) =
        { store := st ++ [{ token := t, expiresAt := e * 1000, createdAt := now }],
          setCookieHeader := some (getClearAuthCookie cfg), error := none } := by
  cases hv : jwtVerify checkSig t now with
  | none =>
    simp [logoutEndpoint, authenticateRequest, hv] at h
  | some p =>
    cases hf : tokenBlacklistFindFirst st t with
    | some r =>
      simp [logoutEndpoint, authenticateRequest, jwtStrategyValidate, hv, hf] at h
    | none =>
      cases hl : logout decode st now t with
      | error err =>
        simp [logoutEndpoint, authenticateRequest, jwtStrategyValidate,
          authControllerLogout, hv, hf, hl] at h
      | ok st' =>
        obtain ⟨c, e, hd, he, hany, hst⟩ := logout_ok_elim hl
        refine ⟨p, c, e, rfl, hd, he, hany, ?_⟩
        simp [logoutEndpoint, authenticateRequest, jwtStrategyValidate,
          authControllerLogout, hv, hf, hl, hst]

/-- The runner `runEvents` only ever appends, both to the store and to the logout log:
existing revocation rows are never updated or deleted. -/
theorem runEvents_app (cfg : AppConfig) (checkSig : String → Option JwtClaims)
    (decode : String → DecodeResult) :
    ∀ (evs : List Event) (st : BlacklistStore) (lo : List (String × Int)),
      ∃ ext lext, runEvents cfg checkSig decode evs st lo = (st ++ ext, lo ++ lext) := by
  intro evs
  induction evs with
  | nil => intro st lo; exact ⟨[], [], by simp [runEvents]⟩
  | cons ev rest ih =>
    intro st lo
    cases ev with
    | loginEv u n => simpa [runEvents] using ih st lo
    | requestEv c n => simpa [runEvents] using ih st lo
    | logoutEv cookies n =>
      cases cookies with
      | none => simpa [runEvents] using ih st lo
      | some t =>
        cases he : (logoutEndpoint cfg checkSig decode st n (some t)).error with
        | some err =>
          simpa [runEvents, he] using ih st lo
        | none =>
          obtain ⟨p, c, e, hv, hd, hexp, hany, hout⟩ :=
            logoutEndpoint_ok_elim cfg checkSig decode st n t he
          obtain ⟨ext, lext, hrun⟩ :=
            ih (st ++ [{ token := t, expiresAt := e * 1000, createdAt := n }])
              (lo ++ [(t, n)])
          refine ⟨{ token := t, expiresAt := e * 1000, createdAt := n } :: ext,
            (t, n) :: lext, ?_⟩
          simp [runEvents, he, hout, hrun]

/-- The invariant `storeLogInv` is preserved by every trace of events. -/
theorem runEvents_preserves_inv (cfg : AppConfig)
    (checkSig : String → Option JwtClaims) (decode : String → DecodeResult)
    (hcoh : ∀ t p, checkSig t = some p → decode t = DecodeResult.objPayload p) :
    ∀ (evs : List Event) (st : BlacklistStore) (lo : List (String × Int)),
      storeLogInv checkSig st lo →
      storeLogInv checkSig (runEvents cfg checkSig decode evs st lo).1
        (runEvents cfg checkSig decode evs st lo).2 := by
  intro evs
  induction evs with
  | nil => intro st lo hInv; simpa [runEvents] using hInv
  | cons ev rest ih =>
    intro st lo hInv
    cases ev with
    | loginEv u n => simpa [runEvents] using ih st lo hInv
    | requestEv c n => simpa [runEvents] using ih st lo hInv
    | logoutEv cookies n =>
      cases cookies with
      | none => simpa [runEvents] using ih st lo hInv
      | some t =>
        cases he : (logoutEndpoint cfg checkSig decode st n (some t)).error with
        | some err => simpa [runEvents, he] using ih st lo hInv
        | none =>
          obtain ⟨p, c, e, hv, hd, hexp, hany, hout⟩ :=
            logoutEndpoint_ok_elim cfg checkSig decode st n t he
          obtain ⟨hcs, hlt⟩ := jwtVerify_some_elim hv
          have hcp : c = p := by
            have := hcoh t p hcs
            rw [hd] at this
            exact (DecodeResult.objPayload.injEq _ _).mp this
          have hrow : storeLogInv checkSig
              (st ++ [{ token := t, expiresAt := e * 1000, createdAt := n }])
              (lo ++ [(t, n)]) := by
            constructor
            · intro t''
              rw [List.any_append]
              constructor
              · intro hA
                rcases Bool.or_eq_true_iff.mp hA with hA | hA
                · obtain ⟨tm, htm⟩ := (hInv.1 t'').mp hA
                  exact ⟨tm, List.mem_append_left _ htm⟩
                · simp only [List.any_cons, List.any_nil, Bool.or_false] at hA
                  have : t = t'' := by simpa using hA
                  exact ⟨n, List.mem_append_right _ (by simp [this])⟩
              · rintro ⟨tm, htm⟩
                rcases List.mem_append.mp htm with htm | htm
                · exact Bool.or_eq_true_iff.mpr
                    (Or.inl ((hInv.1 t'').mpr ⟨tm, htm⟩))
                · apply Bool.or_eq_true_iff.mpr
                  right
                  simp only [List.mem_singleton, Prod.mk.injEq] at htm
                  simp [htm.1]
            · intro t'' tm htm
              rcases List.mem_append.mp htm with htm | htm
              · exact hInv.2 t'' tm htm
              · simp only [List.mem_singleton, Prod.mk.injEq] at htm
                obtain ⟨ht'', htm'⟩ := htm
                subst ht''
                subst htm'
                exact ⟨p, e, hcs, by rw [← hcp]; exact hexp, hlt e (hcp ▸ hexp)⟩
          have := ih (st ++ [{ token := t, expiresAt := e * 1000, createdAt := n }])
            (lo ++ [(t, n)]) hrow
          simpa [runEvents, he, hout] using this

/-- The parser `calculateExpirationDate` is a shift of its value at instant `0`. -/
theorem calculateExpirationDate_shift (now : Int) (s : String) :
    calculateExpirationDate now s =
      (calculateExpirationDate 0 s).map (fun d => now + d) := by
  unfold calculateExpirationDate
  cases hd : endsWithChar s 'd' <;> cases hh : endsWithChar s 'h' <;>
    cases hm : endsWithChar s 'm' <;> cases hs : endsWithChar s 's' <;>
      simp only [if_true, if_false, Bool.false_eq_true, if_neg, if_pos] <;>
      cases parseIntJs (s.dropRight 1) <;> simp

/-- Computing `Max-Age` from the value of the duration parser at instant `0`. -/
theorem tokenCookieMaxAge_of_base (now d : Int) (s : String)
    (h : calculateExpirationDate 0 s = some d) :
    tokenCookieMaxAge now s = some (Int.fdiv d 1000) := by
  unfold tokenCookieMaxAge
  rw [calculateExpirationDate_shift, h]
  simp only [Option.map_some', Option.some.injEq]
  have harith : now + d - now = d := by omega
  rw [harith]

/-- C3: for every instant and every configuration, the cookie `Max-Age`
follows the duration table — `"1d" ↦ 86400`, `"7h" ↦ 25200`, `"30m" ↦ 1800`,
`"45s" ↦ 45`, and a string with an unrecognized suffix (such as `"xyz"`)
defaults to `86400` — and whenever the computed expiry is defined, the cookie
produced by `getTokenCookie` carries exactly
`Max-Age = floor((computed_expiry - now)/1000)`. -/
theorem tokenCookie_duration_table (now : Int) :
    tokenCookieMaxAge now "1d" = some 86400 ∧
    tokenCookieMaxAge now "7h" = some 25200 ∧
    tokenCookieMaxAge now "30m" = some 1800 ∧
    tokenCookieMaxAge now "45s" = some 45 ∧
    tokenCookieMaxAge now "xyz" = some 86400 ∧
    (∀ s : String, endsWithChar s 'd' = false → endsWithChar s 'h' = false →
      endsWithChar s 'm' = false → endsWithChar s 's' = false →
      tokenCookieMaxAge now s = some 86400) ∧
    (∀ (cfg : AppConfig) (token s : String) (e : Int),
      cfg.jwtExpiresIn = some s → calculateExpirationDate now s = some e →
      getTokenCookie cfg now token =
        "Authentication=" ++ token ++ "; " ++ getCommonCookieAttributes cfg ++
          "; Max-Age=" ++ toString (Int.fdiv (e - now) 1000)) ∧
    (∀ (jwtSign : LoginPayload → String) (cfg : AppConfig) (user : User),
      (login jwtSign cfg now user).cookie =
        getTokenCookie cfg now (jwtSign (loginPayloadOf user))) := by
  refine ⟨?_, ?_, ?_, ?_, ?_, ?_, ?_, ?_⟩
  · rw [tokenCookieMaxAge_of_base now 86400000 "1d" (by decide)]; decide
  · rw [tokenCookieMaxAge_of_base now 25200000 "7h" (by decide)]; decide
  · rw [tokenCookieMaxAge_of_base now 1800000 "30m" (by decide)]; decide
  · rw [tokenCookieMaxAge_of_base now 45000 "45s" (by decide)]; decide
  · rw [tokenCookieMaxAge_of_base now 86400000 "xyz" (by decide)]; decide
  · intro s hd' hh' hm' hs'
    have hcalc : calculateExpirationDate 0 s = some 86400000 := by
      unfold calculateExpirationDate
      rw [hd', hh', hm', hs']
      simp
    rw [tokenCookieMaxAge_of_base now 86400000 s hcalc]
    decide
  · intro cfg token s e hcfg hcalc
    simp [getTokenCookie, hcfg, tokenCookieMaxAge, hcalc, maxAgeText]
  · intro jwtSign cfg user
    rfl

/-- C3 witness: the cookie issued under the sample configuration at instant
`1000` carries the `Max-Age` given by the floor formula. -/
theorem tokenCookie_duration_table_witness :
    getTokenCookie cfgA 1000 "tokA" =
      "Authentication=" ++ "tokA" ++ "; " ++ getCommonCookieAttributes cfgA ++
        "; Max-Age=" ++ toString (Int.fdiv ((1000 + 86400000) - 1000) 1000) :=
  (tokenCookie_duration_table 1000).2.2.2.2.2.2.1 cfgA "tokA" "1d"
    (1000 + 86400000) rfl (by decide)

/-- C4: the clearing cookie carries exactly the same
`HttpOnly`/`Path`/`SameSite`/`Secure`/`Domain` attribute text as the setting
cookie, differing only in its (empty) value and `Max-Age=0`. -/
theorem clear_cookie_attribute_parity (cfg : AppConfig) (now : Int)
    (token : String) :
    ∃ attrs : String,
      getTokenCookie cfg now token =
        "Authentication=" ++ token ++ "; " ++ attrs ++ "; Max-Age=" ++
          maxAgeText (tokenCookieMaxAge now (cfg.jwtExpiresIn.getD "1d")) ∧
      getClearAuthCookie cfg = "Authentication=; " ++ attrs ++ "; Max-Age=0" :=
  ⟨getCommonCookieAttributes cfg, rfl, rfl⟩

/-- C2 counterexample: a token whose decode result is an object **without** a
numeric expiry claim is not rejected with `Invalid token` — the claimed
"fails with InvalidToken exactly when the token cannot be decoded into an
object with a numeric expiry claim" is false at this input: the invalid
expiry value surfaces from the storage layer instead. -/
theorem logout_no_exp_not_invalidToken :
    logout decodeNoExpiry [] 0 "tokB" =
      Except.error (LogoutError.dbError DbError.invalidValue) ∧
    logout decodeNoExpiry [] 0 "tokB" ≠ Except.error LogoutError.invalidToken := by
  have h1 : logout decodeNoExpiry [] 0 "tokB" =
      Except.error (LogoutError.dbError DbError.invalidValue) := rfl
  refine ⟨h1, ?_⟩
  rw [h1]
  simp

/-- C2 amended: `logout` fails with `Invalid token` exactly when the token
cannot be decoded at all or decodes to a non-object payload (the numeric
expiry claim is not part of this check); whenever `logout` fails with any
error, the revocation store is unchanged (no row is written). -/
theorem logout_invalidToken_iff (decode : String → DecodeResult)
    (store : BlacklistStore) (now : Int) (token : String) :
    (logout decode store now token = Except.error LogoutError.invalidToken ↔
      (decode token = DecodeResult.null ∨
        ∃ s, decode token = DecodeResult.strPayload s)) ∧
    (∀ err, logout decode store now token = Except.error err →
      logoutStore decode store now token = store) := by
  cases hd : decode token with
  | null =>
    constructor
    · simp [logout, hd]
    · intro err _
      simp [logoutStore, logout, hd]
  | strPayload s =>
    constructor
    · simp [logout, hd]
    · intro err _
      simp [logoutStore, logout, hd]
  | objPayload c =>
    constructor
    · cases hc : tokenBlacklistCreate store token
        (c.exp?.map (fun e => e * 1000)) now with
      | error e => simp [logout, hd, hc]
      | ok s' => simp [logout, hd, hc]
    · intro err herr
      simp [logoutStore, herr]

/-- C2 witness: an undecodable token is rejected with `Invalid token`. -/
theorem logout_invalidToken_iff_witness :
    logout decodeNullA [] 0 "garbage" = Except.error LogoutError.invalidToken :=
  (logout_invalidToken_iff decodeNullA [] 0 "garbage").1.mpr (Or.inl rfl)

/-- C9: `validateUser` returns `null` when no user matches the identifier,
when the matching user is disabled, and when the password comparison fails;
on success it returns the user record with the password removed and every
other field intact. -/
theorem validateUser_behaviour (findOne : String → Option User)
    (bcryptCompare : String → String → Bool) (identifier pass : String) :
    (findOne identifier = none →
      validateUser findOne bcryptCompare identifier pass = none) ∧
    (∀ u, findOne identifier = some u → u.disabled = true →
      validateUser findOne bcryptCompare identifier pass = none) ∧
    (∀ u, findOne identifier = some u → u.disabled = false →
      bcryptCompare pass u.password = false →
      validateUser findOne bcryptCompare identifier pass = none) ∧
    (∀ u, findOne identifier = some u → u.disabled = false →
      bcryptCompare pass u.password = true →
      validateUser findOne bcryptCompare identifier pass =
        some (removePassword u) ∧
      (removePassword u).id = u.id ∧ (removePassword u).email = u.email ∧
      (removePassword u).username = u.username ∧
      (removePassword u).name = u.name ∧
      (removePassword u).createdAt = u.createdAt ∧
      (removePassword u).updatedAt = u.updatedAt ∧
      (removePassword u).disabled = u.disabled ∧
      (removePassword u).verified = u.verified) := by
  refine ⟨?_, ?_, ?_, ?_⟩
  · intro h
    simp [validateUser, h]
  · intro u hu hdis
    simp [validateUser, hu, hdis]
  · intro u hu hdis hcmp
    simp [validateUser, hu, hdis, hcmp]
  · intro u hu hdis hcmp
    refine ⟨by simp [validateUser, hu, hdis, hcmp], rfl, rfl, rfl, rfl, rfl,
      rfl, rfl, rfl⟩

/-- C9 witness: the sample user validates with the right password and comes
back without the password field. -/
theorem validateUser_behaviour_witness :
    validateUser findOneA bcryptCompareA "alice@example.com" "pw" =
      some (removePassword userA) :=
  ((validateUser_behaviour findOneA bcryptCompareA "alice@example.com"
      "pw").2.2.2 userA (by decide) rfl (by decide)).1

/-- C1: once `logout` has succeeded for token `t`, every subsequent
request-time validation of that exact token — after any further trace of
events — finds it in the revocation store and rejects it as unauthenticated,
even when the token still verifies cryptographically and is unexpired. -/
theorem revoked_token_rejected (cfg : AppConfig)
    (decode : String → DecodeResult) (checkSig : String → Option JwtClaims)
    (st st' : BlacklistStore) (now : Int) (t : String)
    (h : logout decode st now t = Except.ok st')
    (evs : List Event) (lo : List (String × Int)) (now' : Int) (p : JwtClaims)
    (hval : jwtVerify checkSig t now' = some p) :
    authenticateRequest checkSig
      (runEvents cfg checkSig decode evs st' lo).1 now' (some t) =
      Except.error AuthError.blacklisted := by
  obtain ⟨c, e, hd, he, hany, hst⟩ := logout_ok_elim h
  obtain ⟨ext, lext, hrun⟩ := runEvents_app cfg checkSig decode evs st' lo
  have hfind : tokenBlacklistFindFirst st' t =
      some { token := t, expiresAt := e * 1000, createdAt := now } := by
    rw [hst, findFirst_append, findFirst_eq_none_of_any_false st t hany]
    simp [tokenBlacklistFindFirst]
  have hfind2 : tokenBlacklistFindFirst ((runEvents cfg checkSig decode evs st' lo).1) t =
      some { token := t, expiresAt := e * 1000, createdAt := now } := by
    rw [hrun]
    dsimp only
    rw [findFirst_append, hfind]
    rfl
  simp [authenticateRequest, hval, jwtStrategyValidate, hfind2]

/-- C1 witness: after logging `"tokA"` out at instant `0`, validating it at
instant `5000` (its signature valid, expiry `9999` s unreached) rejects. -/
theorem revoked_token_rejected_witness :
    authenticateRequest checkSigA
      (runEvents cfgA checkSigA decodeA []
        [{ token := "tokA", expiresAt := 9999000, createdAt := 0 }] []).1
      5000 (some "tokA") = Except.error AuthError.blacklisted :=
  revoked_token_rejected cfgA decodeA checkSigA []
    [{ token := "tokA", expiresAt := 9999000, createdAt := 0 }] 0 "tokA" rfl
    [] [] 5000 claimsA (by decide)

/-- C5: a token issued by `login` and immediately validated, with no
intervening revocation, is accepted, and the validator returns the
`{userId, username}` of the token's signed claims. -/
theorem issued_token_roundtrip (jwtSign : LoginPayload → String)
    (checkSig : String → Option JwtClaims) (cfg : AppConfig)
    (st : BlacklistStore) (now : Int) (user : User) (p : JwtClaims)
    (hver : jwtVerify checkSig (jwtSign (loginPayloadOf user)) now = some p)
    (hsub : p.sub = user.id) (husern : p.username = user.username)
    (hfresh : tokenBlacklistFindFirst st (jwtSign (loginPayloadOf user)) = none) :
    login jwtSign cfg now user =
      { cookie := getTokenCookie cfg now (jwtSign (loginPayloadOf user)) } ∧
    authenticateRequest checkSig st now (some (jwtSign (loginPayloadOf user))) =
      Except.ok { userId := user.id, username := user.username } := by
  constructor
  · rfl
  · simp [authenticateRequest, hver, jwtStrategyValidate, hfresh, hsub, husern]

/-- C5 witness: the sample user's freshly signed token round-trips against an
empty revocation store. -/
theorem issued_token_roundtrip_witness :
    authenticateRequest checkSigA [] 0 (some (signA (loginPayloadOf userA))) =
      Except.ok { userId := userA.id, username := userA.username } :=
  (issued_token_roundtrip signA checkSigA cfgA [] 0 userA claimsA
    (by decide) (by decide) (by decide) (by decide)).2

/-- C7: a second `revoke` of a token whose first `revoke` succeeded fails
with the storage unique-constraint violation and leaves the store unchanged
(no second row for the token). -/
theorem double_revoke_unique_violation (decode : String → DecodeResult)
    (st st' : BlacklistStore) (now now2 : Int) (t : String)
    (h : logout decode st now t = Except.ok st') :
    logout decode st' now2 t =
      Except.error (LogoutError.dbError DbError.uniqueViolation) ∧
    logoutStore decode st' now2 t = st' := by
  obtain ⟨c, e, hd, he, hany, hst⟩ := logout_ok_elim h
  have hany' : st'.any (fun r => r.token == t) = true := by
    rw [hst, List.any_append]
    simp
  have hfail : logout decode st' now2 t =
      Except.error (LogoutError.dbError DbError.uniqueViolation) := by
    simp [logout, hd, tokenBlacklistCreate, he, hany']
  exact ⟨hfail, by simp [logoutStore, hfail]⟩

/-- C7 witness: logging `"tokA"` out twice makes the second call fail with
the unique-constraint violation. -/
theorem double_revoke_unique_violation_witness :
    logout decodeA [{ token := "tokA", expiresAt := 9999000, createdAt := 0 }]
      7 "tokA" = Except.error (LogoutError.dbError DbError.uniqueViolation) :=
  (double_revoke_unique_violation decodeA []
    [{ token := "tokA", expiresAt := 9999000, createdAt := 0 }] 0 7 "tokA"
    rfl).1

/-- C10: a successful `revoke` appends exactly one row, keyed by the exact
raw token string, and the lookup — hence the validation outcome — of every
other token string is unchanged. -/
theorem revoke_frame (decode : String → DecodeResult)
    (st st' : BlacklistStore) (now : Int) (t : String)
    (h : logout decode st now t = Except.ok st') :
    (∃ e, st' = st ++ [{ token := t, expiresAt := e, createdAt := now }]) ∧
    (∀ t', t' ≠ t →
      tokenBlacklistFindFirst st' t' = tokenBlacklistFindFirst st t') ∧
    (∀ t' payload, t' ≠ t →
      jwtStrategyValidate st' (some t') payload =
        jwtStrategyValidate st (some t') payload) := by
  obtain ⟨c, e, hd, he, hany, hst⟩ := logout_ok_elim h
  have hpres : ∀ t', t' ≠ t →
      tokenBlacklistFindFirst st' t' = tokenBlacklistFindFirst st t' := by
    intro t' hne
    have hne' : t ≠ t' := fun hh => hne hh.symm
    rw [hst, findFirst_append]
    have hsing : tokenBlacklistFindFirst
        [{ token := t, expiresAt := e * 1000, createdAt := now }] t' = none := by
      simp [tokenBlacklistFindFirst, hne']
    rw [hsing]
    cases tokenBlacklistFindFirst st t' <;> rfl
  refine ⟨⟨e * 1000, hst⟩, hpres, ?_⟩
  intro t' payload hne
  simp [jwtStrategyValidate, hpres t' hne]

/-- C10 witness: revoking `"tokA"` leaves the lookup of `"tokB"` unchanged. -/
theorem revoke_frame_witness :
    tokenBlacklistFindFirst
      [{ token := "tokA", expiresAt := 9999000, createdAt := 0 }] "tokB" =
      tokenBlacklistFindFirst [] "tokB" :=
  (revoke_frame decodeA []
    [{ token := "tokA", expiresAt := 9999000, createdAt := 0 }] 0 "tokA"
    rfl).2.1 "tokB" (by decide)

/-- C8: whenever the logout endpoint fails — guard rejection (missing or
invalid credential), missing cookie in the controller, or a service/storage
failure — the clearing `Set-Cookie` header is not emitted and the store is
unchanged; the header is emitted only when exactly one revocation row has
been recorded. -/
theorem logout_failure_no_cookie_cleared (cfg : AppConfig)
    (checkSig : String → Option JwtClaims) (decode : String → DecodeResult)
    (st : BlacklistStore) (now : Int) (cookies : Option String) :
    ((logoutEndpoint cfg checkSig decode st now cookies).error.isSome = true →
      (logoutEndpoint cfg checkSig decode st now cookies).setCookieHeader = none ∧
      (logoutEndpoint cfg checkSig decode st now cookies).store = st) ∧
    ((logoutEndpoint cfg checkSig decode st now cookies).error = none →
      (logoutEndpoint cfg checkSig decode st now cookies).setCookieHeader =
        some (getClearAuthCookie cfg) ∧
      ∃ row, (logoutEndpoint cfg checkSig decode st now cookies).store =
        st ++ [row]) := by
  cases cookies with
  | none => simp [logoutEndpoint, authenticateRequest]
  | some t =>
    cases hv : jwtVerify checkSig t now with
    | none => simp [logoutEndpoint, authenticateRequest, hv]
    | some p =>
      cases hf : tokenBlacklistFindFirst st t with
      | some r =>
        simp [logoutEndpoint, authenticateRequest, jwtStrategyValidate, hv, hf]
      | none =>
        cases hl : logout decode st now t with
        | error err =>
          simp [logoutEndpoint, authenticateRequest, jwtStrategyValidate,
            authControllerLogout, hv, hf, hl]
        | ok st' =>
          obtain ⟨c, e, hd, he, hany, hst⟩ := logout_ok_elim hl
          constructor
          · intro habs
            simp [logoutEndpoint, authenticateRequest, jwtStrategyValidate,
              authControllerLogout, hv, hf, hl] at habs
          · intro _
            refine ⟨?_, { token := t, expiresAt := e * 1000, createdAt := now }, ?_⟩
            · simp [logoutEndpoint, authenticateRequest, jwtStrategyValidate,
                authControllerLogout, hv, hf, hl]
            · simp [logoutEndpoint, authenticateRequest, jwtStrategyValidate,
                authControllerLogout, hv, hf, hl, hst]

/-- C8 witness: a logout request with no cookie emits no clearing header and
leaves the store empty. -/
theorem logout_failure_no_cookie_cleared_witness :
    (logoutEndpoint cfgA checkSigA decodeA [] 0 none).setCookieHeader = none ∧
    (logoutEndpoint cfgA checkSigA decodeA [] 0 none).store = [] :=
  (logout_failure_no_cookie_cleared cfgA checkSigA decodeA [] 0 none).1
    (by decide)

/-- C6: starting from an empty revocation store, for every trace of events a
token has a revocation record exactly when a logout for it completed
successfully, every such logout happened strictly before the token's
embedded expiry, and the store is append-only — rows are created only by the
logout operation and never updated or deleted. -/
theorem revocation_record_iff_logged_out (cfg : AppConfig)
    (checkSig : String → Option JwtClaims) (decode : String → DecodeResult)
    (hcoh : ∀ t p, checkSig t = some p → decode t = DecodeResult.objPayload p)
    (evs : List Event) :
    (∀ t : String,
      ((runEvents cfg checkSig decode evs [] []).1.any
          (fun r => r.token == t) = true ↔
        ∃ tm, (t, tm) ∈ (runEvents cfg checkSig decode evs [] []).2)) ∧
    (∀ t tm, (t, tm) ∈ (runEvents cfg checkSig decode evs [] []).2 →
      ∃ p e, checkSig t = some p ∧ p.exp? = some e ∧ Int.fdiv tm 1000 < e) ∧
    (∀ (st : BlacklistStore) (lo : List (String × Int)),
      ∃ ext lext, runEvents cfg checkSig decode evs st lo =
        (st ++ ext, lo ++ lext)) := by
  have hbase : storeLogInv checkSig [] [] := by
    constructor
    · intro t
      simp
    · intro t tm htm
      simp at htm
  have h := runEvents_preserves_inv cfg checkSig decode hcoh evs [] [] hbase
  exact ⟨h.1, h.2, runEvents_app cfg checkSig decode evs⟩

/-- C6 witness: in the one-event trace that logs `"tokA"` out at instant
`0`, the logged-out token had a valid signature and an unexpired numeric
expiry claim. -/
theorem revocation_record_iff_logged_out_witness :
    ∃ p e, checkSigA "tokA" = some p ∧ p.exp? = some e ∧
      Int.fdiv (0 : Int) 1000 < e :=
  (revocation_record_iff_logged_out cfgA checkSigA decodeA checkSigA_coh
    [Event.logoutEv (some "tokA") 0]).2.1 "tokA" 0 (by decide)
